/-
Verification of the arrakis adaptive SQS polling library.

The development embeds the Go sources of the repository shallowly:

* Float64 values (the EWMA average, the smoothing factor, the decay
  factor) are modelled as real numbers; Go integers as `Int`/`Nat`.
* Timestamps are modelled as a real-valued number of seconds on an
  absolute timeline.  Go reads `time.Now()` inside the methods; the
  embedding passes the current time `now` explicitly.  (Go stores
  `lastUpdate` as whole Unix seconds; the embedding keeps the real
  value, which agrees on the whole-second instants the claims use.)
* Each Go method on `*SQS` becomes a function from the configuration
  record (which, as in the source, carries the mutable `arrakis` state)
  to an updated record.
* The mutex, the atomics discipline and the AWS client calls are I/O
  and concurrency plumbing with no algorithmic content; the embedded
  functions perform the same field reads and writes in the same order.
-/
import Mathlib

namespace Arrakis

/-! ### Constants (the Go `const` blocks of the sqs package) -/

/-- Go `_defaultNumberOfMessages`: default maximum number of messages per poll. -/
def defaultNumberOfMessages : ℤ := 10

/-- Go `_defaultIdleWaitTimeSeconds`. -/
def defaultIdleWaitTimeSeconds : ℤ := 20

/-- Go `_defaultVisibilityTimeout`. -/
def defaultVisibilityTimeout : ℤ := 30

/-- Go `_defaultLowVolumeWaitTimeSeconds`. -/
def defaultLowVolumeWaitTimeSeconds : ℤ := 15

/-- Go `_defaultMediumVolumeWaitTimeSeconds`. -/
def defaultMediumVolumeWaitTimeSeconds : ℤ := 10

/-- Go `_defaultHighVolumeWaitTimeSeconds`. -/
def defaultHighVolumeWaitTimeSeconds : ℤ := 5

/-- Go `_defaultVeryHighVolumeWaitTimeSeconds`. -/
def defaultVeryHighVolumeWaitTimeSeconds : ℤ := 1

/-- Go `_defaultDropDetectionThreshold`. -/
def defaultDropDetectionThreshold : ℤ := 10

/-- Go `_lowVolumeMessageThreshold`: a polled count below this value is a
low-volume cycle. -/
def lowVolumeMessageThreshold : ℕ := 2

/-- Go `_consecutiveEmptyThreshold`: empty responses before EWMA decay. -/
def consecutiveEmptyThreshold : ℤ := 2

/-! ### Real-valued constants and the data model -/

noncomputable section

/-- Go `_defaultEwmaAlpha = 0.3`. -/
def defaultEwmaAlpha : ℝ := 0.3

/-- Go `_ewmaResetAverageThreshold = 1.0`. -/
def ewmaResetAverageThreshold : ℝ := 1.0

/-- Go `_minResetIntervalMinutes * time.Minute`, expressed in seconds. -/
def minResetIntervalSeconds : ℝ := 60

/-- Go `_lowVolumeThreshold = 2` (classification boundary). -/
def lowVolumeThreshold : ℝ := 2

/-- Go `_mediumVolumeThreshold = 5` (classification boundary). -/
def mediumVolumeThreshold : ℝ := 5

/-- Go `_highVolumeThreshold = 10` (classification boundary). -/
def highVolumeThreshold : ℝ := 10

/-- Go `_minDecayGapSeconds * time.Second`, expressed in seconds. -/
def minDecayGapSeconds : ℝ := 2

/-- Go `_halfLifeSeconds = 30.0`. -/
def halfLifeSeconds : ℝ := 30.0

/-- Go `_ewmaDecayThreshold = 0.2`. -/
def ewmaDecayThreshold : ℝ := 0.2

/-- The Go struct `arrakis`: the mutable state of the adaptive poller.
The mutex and the never-read `windowStartTime` statistic are omitted;
every other field is kept.  Note that, as in the source, the struct has
its own `ewmaAlpha` and `dropDetectionThreshold` fields, distinct from
the ones in `adaptivePolling`. -/
structure ArrakisState where
  messageCount : ℤ
  lastUpdate : ℝ
  messageSum : ℤ
  messageCounts : ℤ
  average : ℝ
  lowVolumeCycle : ℤ
  lastReceiveEmpty : ℝ
  lastReset : ℝ
  dropDetectionThreshold : ℤ
  ewmaAlpha : ℝ
  consecutiveEmptyMessages : ℤ

/-- The Go struct `adaptivePolling`: configuration of the algorithm. -/
structure AdaptivePollingConfig where
  enableAdaptivePolling : Bool
  idleWaitTimeSeconds : ℤ
  visibilityTimeout : ℤ
  lowVolumeWaitTimeSeconds : ℤ
  mediumVolumeWaitTimeSeconds : ℤ
  highVolumeWaitTimeSeconds : ℤ
  veryHighVolumeWaitTimeSeconds : ℤ
  ewmaAlpha : ℝ
  dropDetectionThreshold : ℤ

/-- The Go struct `config` (the whole state of an `SQS` client value:
the AWS client handle itself is external I/O plumbing). -/
structure Config where
  visibilityTimeout : ℤ
  adaptivePolling : AdaptivePollingConfig
  arrakis : ArrakisState

/-- The zero value of `arrakis` (Go `var config config` zero-initializes it). -/
def zeroArrakisState : ArrakisState :=
  { messageCount := 0, lastUpdate := 0, messageSum := 0, messageCounts := 0,
    average := 0, lowVolumeCycle := 0, lastReceiveEmpty := 0, lastReset := 0,
    dropDetectionThreshold := 0, ewmaAlpha := 0, consecutiveEmptyMessages := 0 }

/-- The zero value of `config`. -/
def zeroConfig : Config :=
  { visibilityTimeout := 0,
    adaptivePolling :=
      { enableAdaptivePolling := false, idleWaitTimeSeconds := 0,
        visibilityTimeout := 0, lowVolumeWaitTimeSeconds := 0,
        mediumVolumeWaitTimeSeconds := 0, highVolumeWaitTimeSeconds := 0,
        veryHighVolumeWaitTimeSeconds := 0, ewmaAlpha := 0,
        dropDetectionThreshold := 0 },
    arrakis := zeroArrakisState }

/-! ### Construction (`setDefaults`, functional options, `NewSQSWithOptions`) -/

/-- Go `setDefaults`: replaces each zero-valued configuration field with its
default.  The Go function is a sequence of independent `if field == 0`
assignments to pairwise-distinct fields, rendered here as one record whose
every field carries its own zero test. -/
def setDefaults (c : Config) : Config :=
  { visibilityTimeout :=
      if c.visibilityTimeout = 0 then defaultVisibilityTimeout
      else c.visibilityTimeout,
    adaptivePolling :=
      { enableAdaptivePolling := c.adaptivePolling.enableAdaptivePolling,
        idleWaitTimeSeconds :=
          if c.adaptivePolling.idleWaitTimeSeconds = 0 then
            defaultIdleWaitTimeSeconds
          else c.adaptivePolling.idleWaitTimeSeconds,
        visibilityTimeout :=
          if c.adaptivePolling.visibilityTimeout = 0 then
            defaultVisibilityTimeout
          else c.adaptivePolling.visibilityTimeout,
        lowVolumeWaitTimeSeconds :=
          if c.adaptivePolling.lowVolumeWaitTimeSeconds = 0 then
            defaultLowVolumeWaitTimeSeconds
          else c.adaptivePolling.lowVolumeWaitTimeSeconds,
        mediumVolumeWaitTimeSeconds :=
          if c.adaptivePolling.mediumVolumeWaitTimeSeconds = 0 then
            defaultMediumVolumeWaitTimeSeconds
          else c.adaptivePolling.mediumVolumeWaitTimeSeconds,
        highVolumeWaitTimeSeconds :=
          if c.adaptivePolling.highVolumeWaitTimeSeconds = 0 then
            defaultHighVolumeWaitTimeSeconds
          else c.adaptivePolling.highVolumeWaitTimeSeconds,
        veryHighVolumeWaitTimeSeconds :=
          if c.adaptivePolling.veryHighVolumeWaitTimeSeconds = 0 then
            defaultVeryHighVolumeWaitTimeSeconds
          else c.adaptivePolling.veryHighVolumeWaitTimeSeconds,
        ewmaAlpha :=
          if c.adaptivePolling.ewmaAlpha = 0 then defaultEwmaAlpha
          else c.adaptivePolling.ewmaAlpha,
        dropDetectionThreshold :=
          if c.adaptivePolling.dropDetectionThreshold = 0 then
            defaultDropDetectionThreshold
          else c.adaptivePolling.dropDetectionThreshold },
    arrakis := c.arrakis }

/-- Go `WithEwmaAlpha`. -/
def WithEwmaAlpha (ewmaAlpha : ℝ) : Config → Config := fun c =>
  { c with adaptivePolling.ewmaAlpha := ewmaAlpha }

/-- Go `WithIdleWaitTimeSeconds`. -/
def WithIdleWaitTimeSeconds (idleWaitTimeSeconds : ℤ) : Config → Config := fun c =>
  { c with adaptivePolling.idleWaitTimeSeconds := idleWaitTimeSeconds }

/-- Go `WithDropDetectionThreshold`. -/
def WithDropDetectionThreshold (dropDetectionThreshold : ℤ) : Config → Config := fun c =>
  { c with adaptivePolling.dropDetectionThreshold := dropDetectionThreshold }

/-- Go `NewSQSWithOptions`: zero-value config, then `setDefaults`, then the
options in order.  Construction is total: the Go function returns `*SQS`
with no error path. -/
def NewSQSWithOptions (options : List (Config → Config)) : Config :=
  options.foldl (fun c opt => opt c) (setDefaults zeroConfig)

/-- Go `NewSQS`. -/
def NewSQS : Config := setDefaults zeroConfig

/-! ### Enable / Disable -/

/-- Go `EnableArrakis`. -/
def EnableArrakis (c : Config) : Config :=
  { c with adaptivePolling.enableAdaptivePolling := true }

/-- Go `DisableArrakis`. -/
def DisableArrakis (c : Config) : Config :=
  { c with adaptivePolling.enableAdaptivePolling := false }

/-- Go `IsArrakisEnabled`. -/
def IsArrakisEnabled (c : Config) : Bool :=
  c.adaptivePolling.enableAdaptivePolling

/-! ### The EWMA updater and the drop detector -/

/-- Go `calculateAverage`: EWMA blend with spike protection.  The local
variable `count` of the source (the observation, clamped when it exceeds
the prior average by more than `average * 2`) appears inline. -/
def calculateAverage (ewmaAlpha average : ℝ) (messageCount : ℕ) : ℝ :=
  ewmaAlpha *
      (if average > 0 then
        if (messageCount : ℝ) - average > average * 2 then
          average + average * 2
        else (messageCount : ℝ)
      else (messageCount : ℝ)) +
    (1 - ewmaAlpha) * average

/-- Go `shouldResetEWMA`: the three reset-eligibility conditions, read on
the state after the EWMA update and low-volume tracking.  The threshold
comes from `AdaptivePolling.DropDetectionThreshold` (not from the state's
own never-written field), as in the source. -/
def shouldResetEWMA (dropDetectionThreshold : ℤ) (now : ℝ) (st : ArrakisState) : Prop :=
  st.lowVolumeCycle ≥ dropDetectionThreshold ∧
    st.average < ewmaResetAverageThreshold ∧
    now - st.lastReset > minResetIntervalSeconds

instance (dropDetectionThreshold : ℤ) (now : ℝ) (st : ArrakisState) :
    Decidable (shouldResetEWMA dropDetectionThreshold now st) := by
  unfold shouldResetEWMA; infer_instance

/-- Go `resetEWMA`. -/
def resetEWMA (now : ℝ) (st : ArrakisState) : ArrakisState :=
  { st with average := 0, lowVolumeCycle := 0, lastReset := now }

/-- Go `updateMessageCount`: atomic statistics stores, then the EWMA
update, then low-volume cycle tracking with the conditional reset. -/
def updateMessageCount (now : ℝ) (messageCount : ℕ) (c : Config) : Config :=
  let a : ArrakisState :=
    { c.arrakis with
        messageCount := (messageCount : ℤ)
        lastUpdate := now
        messageSum := (messageCount : ℤ)
        messageCounts := 1 }
  let a2 : ArrakisState :=
    { a with average := calculateAverage a.ewmaAlpha a.average messageCount }
  if messageCount < lowVolumeMessageThreshold then
    let a3 : ArrakisState := { a2 with lowVolumeCycle := a2.lowVolumeCycle + 1 }
    if shouldResetEWMA c.adaptivePolling.dropDetectionThreshold now a3 then
      { c with arrakis := resetEWMA now a3 }
    else
      { c with arrakis := a3 }
  else
    { c with arrakis := { a2 with lowVolumeCycle := 0 } }

/-! ### Idle decay -/

/-- Go `shouldDecayEWMA`. -/
def shouldDecayEWMA (c : Config) : Prop :=
  c.arrakis.consecutiveEmptyMessages ≥ consecutiveEmptyThreshold

instance (c : Config) : Decidable (shouldDecayEWMA c) := by
  unfold shouldDecayEWMA; infer_instance

/-- The decay factor `math.Pow(0.5, dt / _halfLifeSeconds)` computed inside
Go `decayEWMA`, as a function of the elapsed time `dt` in seconds. -/
def decayFactor (dt : ℝ) : ℝ :=
  (0.5 : ℝ) ^ (dt / halfLifeSeconds)

/-- Go `decayEWMA`: skip when there was no previous update or the gap is
below `_minDecayGapSeconds`; otherwise multiply the average by the decay
factor and snap residues below `_ewmaDecayThreshold` to zero. -/
def decayEWMA (now : ℝ) (c : Config) : Config :=
  if c.arrakis.lastUpdate = 0 then c
  else if now - c.arrakis.lastUpdate < minDecayGapSeconds then c
  else
    let a : ArrakisState :=
      { c.arrakis with
          average := c.arrakis.average * decayFactor (now - c.arrakis.lastUpdate) }
    if a.average < ewmaDecayThreshold then
      { c with arrakis := { a with average := 0 } }
    else
      { c with arrakis := a }

/-- Go `incrementConsecutiveEmptyMessages`. -/
def incrementConsecutiveEmptyMessages (c : Config) : Config :=
  { c with arrakis.consecutiveEmptyMessages := c.arrakis.consecutiveEmptyMessages + 1 }

/-- Go `resetConsecutiveEmptyMessages`. -/
def resetConsecutiveEmptyMessages (c : Config) : Config :=
  { c with arrakis.consecutiveEmptyMessages := 0 }

/-- Go `handleEmptyResponse`: when enabled, count the empty poll and decay
if due; always record the empty-response timestamp. -/
def handleEmptyResponse (now : ℝ) (c : Config) : Config :=
  let c2 : Config :=
    if IsArrakisEnabled c then
      let c3 : Config := incrementConsecutiveEmptyMessages c
      if shouldDecayEWMA c3 then decayEWMA now c3 else c3
    else c
  { c2 with arrakis.lastReceiveEmpty := now }

/-- Go `handleNonEmptyResponse`. -/
def handleNonEmptyResponse (now : ℝ) (messageCount : ℕ) (c : Config) : Config :=
  updateMessageCount now messageCount (resetConsecutiveEmptyMessages c)

/-- Go `handleReceiveResponse`: dispatch on the number of messages the
poll returned. -/
def handleReceiveResponse (now : ℝ) (messageCount : ℕ) (c : Config) : Config :=
  if messageCount = 0 then handleEmptyResponse now c
  else if IsArrakisEnabled c then handleNonEmptyResponse now messageCount c
  else c

/-! ### The wait-time classifier -/

/-- Go `calculateWaitTime`: the five-band classification of the current
average. -/
def calculateWaitTime (c : Config) : ℤ :=
  if c.arrakis.average = 0 then c.adaptivePolling.idleWaitTimeSeconds
  else if c.arrakis.average < lowVolumeThreshold then
    c.adaptivePolling.lowVolumeWaitTimeSeconds
  else if c.arrakis.average < mediumVolumeThreshold then
    c.adaptivePolling.mediumVolumeWaitTimeSeconds
  else if c.arrakis.average < highVolumeThreshold then
    c.adaptivePolling.highVolumeWaitTimeSeconds
  else c.adaptivePolling.veryHighVolumeWaitTimeSeconds

/-- The `WaitTimeSeconds` field Go `ReceiveMessage` sends: set from
`calculateWaitTime` only when Arrakis is enabled. -/
def receiveWaitTimeSeconds (c : Config) : Option ℤ :=
  if IsArrakisEnabled c then some (calculateWaitTime c) else none

/-! ### Event sequences (for the state invariant) -/

/-- One externally visible operation on the controller: a completed poll
handed to `handleReceiveResponse`, or an enable/disable toggle. -/
inductive PollEvent where
  | receive (now : ℝ) (messageCount : ℕ)
  | enable
  | disable

/-- Apply one event to the client state. -/
def applyEvent (c : Config) : PollEvent → Config
  | .receive now messageCount => handleReceiveResponse now messageCount c
  | .enable => EnableArrakis c
  | .disable => DisableArrakis c

/-- Run a sequence of events from an initial state. -/
def runEvents (c : Config) (events : List PollEvent) : Config :=
  events.foldl applyEvent c

/-! ### Concrete client states used to instantiate the theorems -/

/-- A fully configured enabled client (the documented defaults) whose
state carries a given average, a given last-update instant and a given
count of consecutive empty polls. -/
def sampleConfig (avg lastUpdate : ℝ) (empties : ℤ) : Config :=
  { visibilityTimeout := 30,
    adaptivePolling :=
      { enableAdaptivePolling := true, idleWaitTimeSeconds := 20,
        visibilityTimeout := 30, lowVolumeWaitTimeSeconds := 15,
        mediumVolumeWaitTimeSeconds := 10, highVolumeWaitTimeSeconds := 5,
        veryHighVolumeWaitTimeSeconds := 1, ewmaAlpha := 0.3,
        dropDetectionThreshold := 10 },
    arrakis :=
      { zeroArrakisState with
          average := avg
          lastUpdate := lastUpdate
          ewmaAlpha := 0.3
          consecutiveEmptyMessages := empties } }

end

/-! ### GetOrDefault (pkg/internal/infra/utils/get_or_default.go) -/

/-- A Go `interface` value as `GetOrDefault` can receive it in this
repository: `nil`, a boxed `string`, a boxed `int` (the default type of an
untyped integer constant), or a boxed `int32`.  Two interface values are
`==` exactly when the dynamic types and the values agree, which is
`DecidableEq` of this type. -/
inductive GoValue where
  | nil
  | str (s : String)
  | int (n : ℤ)
  | int32 (n : ℤ)
deriving DecidableEq

/-- Go `GetOrDefault`: the literals `""` and `0` box as `string` and `int`
respectively, so the two equality tests compare against those dynamic
types. -/
def GetOrDefault (value defaultValue : GoValue) : GoValue :=
  if value = GoValue.nil ∨ value = GoValue.str "" ∨ value = GoValue.int 0 then
    defaultValue
  else value

/-- A Go type assertion `.(int32)`: `some` of the payload when the dynamic
type is `int32`, `none` for the panic of a failed assertion. -/
def assertInt32 : GoValue → Option ℤ
  | GoValue.int32 n => some n
  | _ => none

/-- The `MaxNumberOfMessages` computation of Go `ReceiveMessage`:
`utils.GetOrDefault(maxMsg, _defaultNumberOfMessages).(int32)` where
`maxMsg` is the caller's `int32` and the default constant boxes as `int`. -/
def receiveMaxNumberOfMessages (maxMsg : ℤ) : Option ℤ :=
  assertInt32 (GetOrDefault (GoValue.int32 maxMsg) (GoValue.int defaultNumberOfMessages))

/-! ## Theorems -/

/-- C1: EWMA update on a non-empty poll: for every observed count `c ≥ 0`
(a natural number), if the prior average is `0` the new average equals
`alpha * c`; otherwise the effective count is the observation clamped to
at most `average + 2 * average`, and the new average is
`alpha * effectiveCount + (1 - alpha) * average`.  In particular, from
`average = 1.0` with `alpha = 0.3`, observing `100` yields `1.6`. -/
theorem calculateAverage_characterization (ewmaAlpha average : ℝ) (messageCount : ℕ)
    (havg : 0 ≤ average) :
    (average = 0 →
      calculateAverage ewmaAlpha average messageCount = ewmaAlpha * (messageCount : ℝ)) ∧
    (0 < average →
      calculateAverage ewmaAlpha average messageCount =
        ewmaAlpha * min (messageCount : ℝ) (average + 2 * average) +
          (1 - ewmaAlpha) * average) ∧
    calculateAverage 0.3 1 100 = 1.6 := by
  refine ⟨?_, ?_, ?_⟩
  · intro h0
    subst h0
    simp [calculateAverage]
  · intro hpos
    unfold calculateAverage
    rw [if_pos hpos]
    split_ifs with hclamp
    · have : min ((messageCount : ℝ)) (average + 2 * average) = average + 2 * average := by
        apply min_eq_right
        nlinarith
      rw [this]
      ring
    · push_neg at hclamp
      have : min ((messageCount : ℝ)) (average + 2 * average) = (messageCount : ℝ) := by
        apply min_eq_left
        nlinarith
      rw [this]
  · unfold calculateAverage
    norm_num

/-- Witness for C1 at `alpha = 0.3`, `average = 1`, count `100`. -/
theorem calculateAverage_characterization_witness :
    (0 : ℝ) ≤ 1 ∧
      (((1 : ℝ) = 0 → calculateAverage 0.3 1 100 = 0.3 * ((100 : ℕ) : ℝ)) ∧
        ((0 : ℝ) < 1 →
          calculateAverage 0.3 1 100 =
            0.3 * min ((100 : ℕ) : ℝ) (1 + 2 * 1) + (1 - 0.3) * 1) ∧
        calculateAverage 0.3 1 100 = 1.6) :=
  ⟨by norm_num, calculateAverage_characterization 0.3 1 100 (by norm_num)⟩

/-- C3: spike bound: for every prior average `A > 0`, every
`alpha ∈ (0, 1]` and every observation `V ≥ 0`, the post-update average
is at most `A + alpha * 2 * A`. -/
theorem calculateAverage_spike_bound (ewmaAlpha A : ℝ) (V : ℕ)
    (hA : 0 < A) (halpha : 0 < ewmaAlpha) (halpha1 : ewmaAlpha ≤ 1) :
    calculateAverage ewmaAlpha A V ≤ A + ewmaAlpha * 2 * A := by
  unfold calculateAverage
  rw [if_pos hA]
  split_ifs with hclamp
  · nlinarith
  · push_neg at hclamp
    nlinarith

/-- Witness for C3 at `A = 1`, `alpha = 0.3`, `V = 100`. -/
theorem calculateAverage_spike_bound_witness :
    (0 : ℝ) < 1 ∧ (0 : ℝ) < 0.3 ∧ (0.3 : ℝ) ≤ 1 ∧
      calculateAverage 0.3 1 100 ≤ 1 + 0.3 * 2 * 1 :=
  ⟨by norm_num, by norm_num, by norm_num,
    calculateAverage_spike_bound 0.3 1 100 (by norm_num) (by norm_num) (by norm_num)⟩

/-- C10: `ReceiveMessage` with `maxMsg = 0` sends `MaxNumberOfMessages = 0`:
`GetOrDefault`'s `value == 0` test compares the boxed `int32` against an
untyped-constant zero boxed as `int`, so it never matches; the original
`int32` is always returned and the `.(int32)` assertion never panics. -/
theorem getOrDefault_int32_never_defaults :
    receiveMaxNumberOfMessages 0 = some 0 ∧
      (∀ maxMsg : ℤ,
        GetOrDefault (GoValue.int32 maxMsg) (GoValue.int defaultNumberOfMessages) =
          GoValue.int32 maxMsg) ∧
      (∀ maxMsg : ℤ, receiveMaxNumberOfMessages maxMsg = some maxMsg) := by
  refine ⟨rfl, ?_, ?_⟩
  · intro maxMsg
    simp [GetOrDefault]
  · intro maxMsg
    simp [receiveMaxNumberOfMessages, GetOrDefault, assertInt32]

/-- C2: wait-time classification: an average of `0` selects the idle wait,
`0 < a < 2` the low wait, `2 ≤ a < 5` the medium wait, `5 ≤ a < 10` the
high wait, and `a ≥ 10` the very-high wait; each boundary maps to the
higher band. -/
theorem calculateWaitTime_classification (c : Config) (havg : 0 ≤ c.arrakis.average) :
    (c.arrakis.average = 0 →
      calculateWaitTime c = c.adaptivePolling.idleWaitTimeSeconds) ∧
    (0 < c.arrakis.average → c.arrakis.average < lowVolumeThreshold →
      calculateWaitTime c = c.adaptivePolling.lowVolumeWaitTimeSeconds) ∧
    (lowVolumeThreshold ≤ c.arrakis.average → c.arrakis.average < mediumVolumeThreshold →
      calculateWaitTime c = c.adaptivePolling.mediumVolumeWaitTimeSeconds) ∧
    (mediumVolumeThreshold ≤ c.arrakis.average → c.arrakis.average < highVolumeThreshold →
      calculateWaitTime c = c.adaptivePolling.highVolumeWaitTimeSeconds) ∧
    (highVolumeThreshold ≤ c.arrakis.average →
      calculateWaitTime c = c.adaptivePolling.veryHighVolumeWaitTimeSeconds) := by
  unfold calculateWaitTime lowVolumeThreshold mediumVolumeThreshold highVolumeThreshold
  refine ⟨?_, ?_, ?_, ?_, ?_⟩
  · intro h0
    rw [if_pos h0]
  · intro hpos hlt
    rw [if_neg (by linarith), if_pos (by exact_mod_cast hlt)]
  · intro hge hlt
    have h2 : (2 : ℝ) ≤ c.arrakis.average := hge
    rw [if_neg (by linarith), if_neg (by push_neg; linarith),
      if_pos (by exact_mod_cast hlt)]
  · intro hge hlt
    have h5 : (5 : ℝ) ≤ c.arrakis.average := hge
    rw [if_neg (by linarith), if_neg (by push_neg; linarith),
      if_neg (by push_neg; linarith), if_pos (by exact_mod_cast hlt)]
  · intro hge
    have h10 : (10 : ℝ) ≤ c.arrakis.average := hge
    rw [if_neg (by linarith), if_neg (by push_neg; linarith),
      if_neg (by push_neg; linarith), if_neg (by push_neg; linarith)]

/-- Witness for C2 at a concrete enabled client with `average = 3`. -/
theorem calculateWaitTime_classification_witness :
    (0 : ℝ) ≤ (sampleConfig 3 0 0).arrakis.average ∧
      (lowVolumeThreshold ≤ (sampleConfig 3 0 0).arrakis.average →
        (sampleConfig 3 0 0).arrakis.average < mediumVolumeThreshold →
        calculateWaitTime (sampleConfig 3 0 0) =
          (sampleConfig 3 0 0).adaptivePolling.mediumVolumeWaitTimeSeconds) :=
  ⟨by norm_num [sampleConfig, zeroArrakisState],
    (calculateWaitTime_classification (sampleConfig 3 0 0)
      (by norm_num [sampleConfig, zeroArrakisState])).2.2.1⟩

/-- C8: `EnableArrakis` and `DisableArrakis` are idempotent, commute back
to the same state, and touch nothing but the enable flag: the EWMA state,
the main visibility timeout and every adaptive-polling parameter are
preserved, the classifier output is unchanged, and only the wait time the
poll request carries switches with the mode. -/
theorem enable_disable_idempotent_frame (c : Config) :
    EnableArrakis (DisableArrakis (EnableArrakis c)) = EnableArrakis c ∧
    EnableArrakis (EnableArrakis c) = EnableArrakis c ∧
    DisableArrakis (DisableArrakis c) = DisableArrakis c ∧
    (EnableArrakis c).arrakis = c.arrakis ∧
    (DisableArrakis c).arrakis = c.arrakis ∧
    (EnableArrakis c).visibilityTimeout = c.visibilityTimeout ∧
    (DisableArrakis c).visibilityTimeout = c.visibilityTimeout ∧
    (EnableArrakis c).adaptivePolling =
      { c.adaptivePolling with enableAdaptivePolling := true } ∧
    (DisableArrakis c).adaptivePolling =
      { c.adaptivePolling with enableAdaptivePolling := false } ∧
    calculateWaitTime (EnableArrakis c) = calculateWaitTime c ∧
    calculateWaitTime (DisableArrakis c) = calculateWaitTime c ∧
    receiveWaitTimeSeconds (EnableArrakis c) = some (calculateWaitTime c) ∧
    receiveWaitTimeSeconds (DisableArrakis c) = none := by
  refine ⟨rfl, rfl, rfl, rfl, rfl, rfl, rfl, rfl, rfl, ?_, ?_, ?_, ?_⟩
  · simp [calculateWaitTime, EnableArrakis]
  · simp [calculateWaitTime, DisableArrakis]
  · simp [receiveWaitTimeSeconds, IsArrakisEnabled, EnableArrakis, calculateWaitTime]
  · simp [receiveWaitTimeSeconds, IsArrakisEnabled, DisableArrakis]

/-- C4: drop reset: after a non-empty-poll update with a positive
`dropDetectionThreshold`, the average is reset exactly when the
post-update low-volume cycle count reaches the threshold, the post-update
average is below `1.0` and more than one minute elapsed since
`lastResetTime`; the reset writes `average = 0`, `lowVolumeCycleCount = 0`
and `lastResetTime = now`, and otherwise the update's own values are
kept. -/
theorem updateMessageCount_drop_reset (now : ℝ) (messageCount : ℕ) (c : Config)
    (hT : 1 ≤ c.adaptivePolling.dropDetectionThreshold) :
    (((if messageCount < lowVolumeMessageThreshold then c.arrakis.lowVolumeCycle + 1
          else 0) ≥ c.adaptivePolling.dropDetectionThreshold ∧
        calculateAverage c.arrakis.ewmaAlpha c.arrakis.average messageCount <
          ewmaResetAverageThreshold ∧
        now - c.arrakis.lastReset > minResetIntervalSeconds) →
      (updateMessageCount now messageCount c).arrakis.average = 0 ∧
        (updateMessageCount now messageCount c).arrakis.lowVolumeCycle = 0 ∧
        (updateMessageCount now messageCount c).arrakis.lastReset = now) ∧
    (¬((if messageCount < lowVolumeMessageThreshold then c.arrakis.lowVolumeCycle + 1
          else 0) ≥ c.adaptivePolling.dropDetectionThreshold ∧
        calculateAverage c.arrakis.ewmaAlpha c.arrakis.average messageCount <
          ewmaResetAverageThreshold ∧
        now - c.arrakis.lastReset > minResetIntervalSeconds) →
      (updateMessageCount now messageCount c).arrakis.average =
          calculateAverage c.arrakis.ewmaAlpha c.arrakis.average messageCount ∧
        (updateMessageCount now messageCount c).arrakis.lowVolumeCycle =
          (if messageCount < lowVolumeMessageThreshold then c.arrakis.lowVolumeCycle + 1
            else 0) ∧
        (updateMessageCount now messageCount c).arrakis.lastReset =
          c.arrakis.lastReset) := by
  simp only [updateMessageCount]
  split_ifs with hlow hreset
  · unfold shouldResetEWMA at hreset
    simp only at hreset
    constructor
    · intro _
      simp [resetEWMA]
    · intro hn
      exact absurd hreset hn
  · unfold shouldResetEWMA at hreset
    simp only at hreset
    constructor
    · intro hc
      exact absurd hc hreset
    · intro _
      simp
  · constructor
    · intro hc
      omega
    · intro _
      simp

/-- Witness for C4: a configured client (threshold 10) observing one
message from `average = 0.5`; no reset condition holds, so the update's
values are kept. -/
theorem updateMessageCount_drop_reset_witness :
    (1 : ℤ) ≤ (sampleConfig 0.5 0 0).adaptivePolling.dropDetectionThreshold ∧
    ((((if (1 : ℕ) < lowVolumeMessageThreshold then
            (sampleConfig 0.5 0 0).arrakis.lowVolumeCycle + 1 else 0) ≥
          (sampleConfig 0.5 0 0).adaptivePolling.dropDetectionThreshold ∧
        calculateAverage (sampleConfig 0.5 0 0).arrakis.ewmaAlpha
            (sampleConfig 0.5 0 0).arrakis.average 1 < ewmaResetAverageThreshold ∧
        (100 : ℝ) - (sampleConfig 0.5 0 0).arrakis.lastReset > minResetIntervalSeconds) →
      (updateMessageCount 100 1 (sampleConfig 0.5 0 0)).arrakis.average = 0 ∧
        (updateMessageCount 100 1 (sampleConfig 0.5 0 0)).arrakis.lowVolumeCycle = 0 ∧
        (updateMessageCount 100 1 (sampleConfig 0.5 0 0)).arrakis.lastReset = 100) ∧
    (¬((if (1 : ℕ) < lowVolumeMessageThreshold then
            (sampleConfig 0.5 0 0).arrakis.lowVolumeCycle + 1 else 0) ≥
          (sampleConfig 0.5 0 0).adaptivePolling.dropDetectionThreshold ∧
        calculateAverage (sampleConfig 0.5 0 0).arrakis.ewmaAlpha
            (sampleConfig 0.5 0 0).arrakis.average 1 < ewmaResetAverageThreshold ∧
        (100 : ℝ) - (sampleConfig 0.5 0 0).arrakis.lastReset > minResetIntervalSeconds) →
      (updateMessageCount 100 1 (sampleConfig 0.5 0 0)).arrakis.average =
          calculateAverage (sampleConfig 0.5 0 0).arrakis.ewmaAlpha
            (sampleConfig 0.5 0 0).arrakis.average 1 ∧
        (updateMessageCount 100 1 (sampleConfig 0.5 0 0)).arrakis.lowVolumeCycle =
          (if (1 : ℕ) < lowVolumeMessageThreshold then
            (sampleConfig 0.5 0 0).arrakis.lowVolumeCycle + 1 else 0) ∧
        (updateMessageCount 100 1 (sampleConfig 0.5 0 0)).arrakis.lastReset =
          (sampleConfig 0.5 0 0).arrakis.lastReset)) :=
  ⟨by norm_num [sampleConfig],
    updateMessageCount_drop_reset 100 1 (sampleConfig 0.5 0 0)
      (by norm_num [sampleConfig])⟩

/-- C7 counterexample: construction does not fail fast on an invalid
parameter: `NewSQSWithOptions` with an option setting a negative alpha
succeeds and keeps the negative alpha unchanged. -/
theorem newSQSWithOptions_no_validation_counterexample :
    (NewSQSWithOptions [WithEwmaAlpha (-(1 / 2))]).adaptivePolling.ewmaAlpha = -(1 / 2) ∧
      (NewSQSWithOptions [WithEwmaAlpha (-(1 / 2))]).adaptivePolling.ewmaAlpha < 0 := by
  constructor <;>
    norm_num [NewSQSWithOptions, WithEwmaAlpha, setDefaults, zeroConfig, zeroArrakisState]

/-- C7 amended: construction is total (never fails); no validation is
performed, and the only silent correction is `setDefaults` substituting
the documented default for each zero-valued field, leaving every non-zero
field, the enable flag and the EWMA state untouched. -/
theorem setDefaults_zero_means_default (c : Config) :
    (setDefaults c).visibilityTimeout =
      (if c.visibilityTimeout = 0 then defaultVisibilityTimeout
        else c.visibilityTimeout) ∧
    (setDefaults c).adaptivePolling.idleWaitTimeSeconds =
      (if c.adaptivePolling.idleWaitTimeSeconds = 0 then defaultIdleWaitTimeSeconds
        else c.adaptivePolling.idleWaitTimeSeconds) ∧
    (setDefaults c).adaptivePolling.visibilityTimeout =
      (if c.adaptivePolling.visibilityTimeout = 0 then defaultVisibilityTimeout
        else c.adaptivePolling.visibilityTimeout) ∧
    (setDefaults c).adaptivePolling.lowVolumeWaitTimeSeconds =
      (if c.adaptivePolling.lowVolumeWaitTimeSeconds = 0 then
          defaultLowVolumeWaitTimeSeconds
        else c.adaptivePolling.lowVolumeWaitTimeSeconds) ∧
    (setDefaults c).adaptivePolling.mediumVolumeWaitTimeSeconds =
      (if c.adaptivePolling.mediumVolumeWaitTimeSeconds = 0 then
          defaultMediumVolumeWaitTimeSeconds
        else c.adaptivePolling.mediumVolumeWaitTimeSeconds) ∧
    (setDefaults c).adaptivePolling.highVolumeWaitTimeSeconds =
      (if c.adaptivePolling.highVolumeWaitTimeSeconds = 0 then
          defaultHighVolumeWaitTimeSeconds
        else c.adaptivePolling.highVolumeWaitTimeSeconds) ∧
    (setDefaults c).adaptivePolling.veryHighVolumeWaitTimeSeconds =
      (if c.adaptivePolling.veryHighVolumeWaitTimeSeconds = 0 then
          defaultVeryHighVolumeWaitTimeSeconds
        else c.adaptivePolling.veryHighVolumeWaitTimeSeconds) ∧
    (setDefaults c).adaptivePolling.ewmaAlpha =
      (if c.adaptivePolling.ewmaAlpha = 0 then defaultEwmaAlpha
        else c.adaptivePolling.ewmaAlpha) ∧
    (setDefaults c).adaptivePolling.dropDetectionThreshold =
      (if c.adaptivePolling.dropDetectionThreshold = 0 then
          defaultDropDetectionThreshold
        else c.adaptivePolling.dropDetectionThreshold) ∧
    (setDefaults c).adaptivePolling.enableAdaptivePolling =
      c.adaptivePolling.enableAdaptivePolling ∧
    (setDefaults c).arrakis = c.arrakis ∧
    NewSQSWithOptions [] = setDefaults zeroConfig :=
  ⟨rfl, rfl, rfl, rfl, rfl, rfl, rfl, rfl, rfl, rfl, rfl, rfl⟩

/-! ### Helper lemmas about the decay factor -/

lemma decayFactor_30 : decayFactor 30 = 0.5 := by
  have h : (30 : ℝ) / halfLifeSeconds = 1 := by norm_num [halfLifeSeconds]
  rw [decayFactor, h, Real.rpow_one]

lemma pow_six_of_two_rpow : ((2 : ℝ) ^ ((7 : ℝ) / 6)) ^ (6 : ℕ) = 128 := by
  rw [← Real.rpow_natCast ((2 : ℝ) ^ ((7 : ℝ) / 6)) 6,
    ← Real.rpow_mul (by norm_num : (0 : ℝ) ≤ 2)]
  have h7 : (7 : ℝ) / 6 * ((6 : ℕ) : ℝ) = ((7 : ℕ) : ℝ) := by push_cast; ring
  rw [h7, Real.rpow_natCast]
  norm_num

lemma two_rpow_pos : (0 : ℝ) < (2 : ℝ) ^ ((7 : ℝ) / 6) :=
  Real.rpow_pos_of_pos (by norm_num) _

lemma two_rpow_lt : (2 : ℝ) ^ ((7 : ℝ) / 6) < 2.246 := by
  by_contra h
  push_neg at h
  have h6 : (2.246 : ℝ) ^ (6 : ℕ) ≤ ((2 : ℝ) ^ ((7 : ℝ) / 6)) ^ (6 : ℕ) :=
    pow_le_pow_left₀ (by norm_num) h 6
  rw [pow_six_of_two_rpow] at h6
  norm_num at h6

lemma two_rpow_gt : (2.244 : ℝ) < (2 : ℝ) ^ ((7 : ℝ) / 6) := by
  by_contra h
  push_neg at h
  have h6 : ((2 : ℝ) ^ ((7 : ℝ) / 6)) ^ (6 : ℕ) ≤ (2.244 : ℝ) ^ (6 : ℕ) :=
    pow_le_pow_left₀ (le_of_lt two_rpow_pos) h 6
  rw [pow_six_of_two_rpow] at h6
  norm_num at h6

lemma decayFactor_35_eq : decayFactor 35 = ((2 : ℝ) ^ ((7 : ℝ) / 6))⁻¹ := by
  have h1 : (35 : ℝ) / halfLifeSeconds = (7 : ℝ) / 6 := by norm_num [halfLifeSeconds]
  have h2 : (0.5 : ℝ) = (2 : ℝ)⁻¹ := by norm_num
  rw [decayFactor, h1, h2, Real.inv_rpow (by norm_num : (0 : ℝ) ≤ 2)]

lemma decayFactor_35_bounds : 0.445 < decayFactor 35 ∧ decayFactor 35 < 0.446 := by
  rw [decayFactor_35_eq]
  have hpos := two_rpow_pos
  have hlt := two_rpow_lt
  have hgt := two_rpow_gt
  have hinv : (0 : ℝ) < ((2 : ℝ) ^ ((7 : ℝ) / 6))⁻¹ := inv_pos.mpr hpos
  have hmul : (2 : ℝ) ^ ((7 : ℝ) / 6) * ((2 : ℝ) ^ ((7 : ℝ) / 6))⁻¹ = 1 :=
    mul_inv_cancel₀ (ne_of_gt hpos)
  constructor <;> nlinarith

/-- On an enabled client whose incremented empty-poll count reaches the
decay threshold, the empty-poll path leaves exactly the decayed average. -/
lemma handleEmptyResponse_arrakis_average (now : ℝ) (c : Config)
    (hen : IsArrakisEnabled c = true)
    (hdec : shouldDecayEWMA (incrementConsecutiveEmptyMessages c)) :
    (handleEmptyResponse now c).arrakis.average =
      (decayEWMA now (incrementConsecutiveEmptyMessages c)).arrakis.average := by
  unfold handleEmptyResponse
  rw [hen, if_pos rfl, if_pos hdec]

/-- Evaluation of `decayEWMA` once both skip guards are passed. -/
lemma decayEWMA_average_eval (now : ℝ) (c : Config)
    (hlu : c.arrakis.lastUpdate ≠ 0)
    (hgap : ¬(now - c.arrakis.lastUpdate < minDecayGapSeconds)) :
    (decayEWMA now c).arrakis.average =
      if c.arrakis.average * decayFactor (now - c.arrakis.lastUpdate) <
          ewmaDecayThreshold then 0
      else c.arrakis.average * decayFactor (now - c.arrakis.lastUpdate) := by
  unfold decayEWMA
  rw [if_neg hlu, if_neg hgap]
  simp only
  split_ifs with h <;> rfl

/-- Evaluation of the empty-poll path on the C6 scenario: enabled client,
`average = 3`, last update 35 s ago, second consecutive empty poll. -/
lemma handleEmptyResponse_c6_eval :
    (handleEmptyResponse 135 (sampleConfig 3 100 1)).arrakis.average =
      3 * decayFactor 35 := by
  have hb := decayFactor_35_bounds
  have hsnap : ¬(3 * decayFactor 35 < ewmaDecayThreshold) := by
    unfold ewmaDecayThreshold
    nlinarith [hb.1]
  simp only [handleEmptyResponse, IsArrakisEnabled, sampleConfig, zeroArrakisState,
    incrementConsecutiveEmptyMessages, shouldDecayEWMA, consecutiveEmptyThreshold,
    decayEWMA]
  norm_num [hsnap, minDecayGapSeconds]

/-- C5 counterexample: from `average = 0.3` (> 0), one half-life of idle
gap and a second consecutive empty poll, the code does not return
`a0 * 0.5 = 0.15`: the residue is below the `0.2` cleanup threshold, so
the average snaps to exactly `0`. -/
theorem decay_halving_counterexample :
    (sampleConfig 0.3 100 1).arrakis.average = 0.3 ∧
      (0 : ℝ) < (sampleConfig 0.3 100 1).arrakis.average ∧
      (handleEmptyResponse 130 (sampleConfig 0.3 100 1)).arrakis.average = 0 ∧
      (handleEmptyResponse 130 (sampleConfig 0.3 100 1)).arrakis.average ≠
        (0.3 : ℝ) * 0.5 := by
  refine ⟨rfl, by norm_num [sampleConfig, zeroArrakisState], ?_, ?_⟩ <;>
    simp only [handleEmptyResponse, IsArrakisEnabled, sampleConfig, zeroArrakisState,
      incrementConsecutiveEmptyMessages, shouldDecayEWMA, consecutiveEmptyThreshold,
      decayEWMA] <;>
    norm_num [minDecayGapSeconds, decayFactor_30, ewmaDecayThreshold]

/-- C5 amended: the halving law holds only above the cleanup threshold:
with `consecutiveEmptyCount` reaching 2 and an idle gap of exactly one
half-life (30 s), the decayed average equals `a0 * 0.5` whenever
`a0 * 0.5 ≥ 0.2` (i.e. `a0 ≥ 0.4`); a smaller residue snaps to exactly
`0`. -/
theorem decay_halving_amended (now : ℝ) (c : Config) (a0 : ℝ)
    (ha : c.arrakis.average = a0)
    (hen : IsArrakisEnabled c = true)
    (hcnt : 1 ≤ c.arrakis.consecutiveEmptyMessages)
    (hlu : c.arrakis.lastUpdate ≠ 0)
    (hdt : now - c.arrakis.lastUpdate = 30) :
    (0.4 ≤ a0 → (handleEmptyResponse now c).arrakis.average = a0 * 0.5) ∧
      (a0 * 0.5 < 0.2 → (handleEmptyResponse now c).arrakis.average = 0) := by
  have hdec : shouldDecayEWMA (incrementConsecutiveEmptyMessages c) := by
    unfold shouldDecayEWMA consecutiveEmptyThreshold incrementConsecutiveEmptyMessages
    simp only
    omega
  have e2 : (incrementConsecutiveEmptyMessages c).arrakis.lastUpdate =
      c.arrakis.lastUpdate := rfl
  have e3 : (incrementConsecutiveEmptyMessages c).arrakis.average =
      c.arrakis.average := rfl
  have key := decayEWMA_average_eval now (incrementConsecutiveEmptyMessages c)
    (by rw [e2]; exact hlu)
    (by rw [e2, hdt]; norm_num [minDecayGapSeconds])
  rw [e2, e3, hdt, ha, decayFactor_30] at key
  rw [handleEmptyResponse_arrakis_average now c hen hdec, key]
  constructor
  · intro h04
    rw [if_neg (by unfold ewmaDecayThreshold; intro hlt; nlinarith)]
  · intro hsnap
    rw [if_pos (by unfold ewmaDecayThreshold; linarith)]

/-- Witness for C5 (amended) at `a0 = 3`: the decayed average is `1.5`. -/
theorem decay_halving_amended_witness :
    (sampleConfig 3 100 1).arrakis.average = 3 ∧
      IsArrakisEnabled (sampleConfig 3 100 1) = true ∧
      1 ≤ (sampleConfig 3 100 1).arrakis.consecutiveEmptyMessages ∧
      (sampleConfig 3 100 1).arrakis.lastUpdate ≠ 0 ∧
      (130 : ℝ) - (sampleConfig 3 100 1).arrakis.lastUpdate = 30 ∧
      (((0.4 : ℝ) ≤ 3 →
          (handleEmptyResponse 130 (sampleConfig 3 100 1)).arrakis.average = 3 * 0.5) ∧
        ((3 : ℝ) * 0.5 < 0.2 →
          (handleEmptyResponse 130 (sampleConfig 3 100 1)).arrakis.average = 0)) :=
  ⟨rfl, rfl, by norm_num [sampleConfig, zeroArrakisState],
    by norm_num [sampleConfig, zeroArrakisState],
    by norm_num [sampleConfig, zeroArrakisState],
    decay_halving_amended 130 (sampleConfig 3 100 1) 3 rfl rfl
      (by norm_num [sampleConfig, zeroArrakisState])
      (by norm_num [sampleConfig, zeroArrakisState])
      (by norm_num [sampleConfig, zeroArrakisState])⟩

/-- C6 counterexample: the first decay step of the claimed scenario uses
`decayFactor 35 = 0.5 ^ (35/30)`, which lies strictly between `0.445` and
`0.446` — not approximately `0.435` — so the decayed average
`3 * decayFactor 35` lies strictly between `1.335` and `1.338` — not
approximately `1.305`. -/
theorem decay_timing_counterexample :
    0.445 < decayFactor 35 ∧ decayFactor 35 < 0.446 ∧
      1.335 < (handleEmptyResponse 135 (sampleConfig 3 100 1)).arrakis.average ∧
      (handleEmptyResponse 135 (sampleConfig 3 100 1)).arrakis.average < 1.338 := by
  obtain ⟨h1, h2⟩ := decayFactor_35_bounds
  rw [handleEmptyResponse_c6_eval]
  exact ⟨h1, h2, by nlinarith, by nlinarith⟩

/-- C6 amended: the decay factor is `0.5 ^ (dt / halfLife)` with `dt` the
time since `lastUpdateTime`; decay is skipped when `dt < 2 s`; a resulting
average below `0.2` snaps to exactly `0`; and on the claimed scenario the
first decay step from `average = 3.0` with `dt = 35 s` yields
`3 * 0.5 ^ (35/30)`, approximately `1.336` (the factor is approximately
`0.445`, not `0.435`; the average is not `1.305`). -/
theorem decay_timing_amended (now : ℝ) (c : Config)
    (hlu : c.arrakis.lastUpdate ≠ 0) :
    (now - c.arrakis.lastUpdate < minDecayGapSeconds → decayEWMA now c = c) ∧
      (minDecayGapSeconds ≤ now - c.arrakis.lastUpdate →
        ewmaDecayThreshold ≤
          c.arrakis.average * decayFactor (now - c.arrakis.lastUpdate) →
        (decayEWMA now c).arrakis.average =
          c.arrakis.average * decayFactor (now - c.arrakis.lastUpdate)) ∧
      (minDecayGapSeconds ≤ now - c.arrakis.lastUpdate →
        c.arrakis.average * decayFactor (now - c.arrakis.lastUpdate) <
          ewmaDecayThreshold →
        (decayEWMA now c).arrakis.average = 0) ∧
      (0.445 < decayFactor 35 ∧ decayFactor 35 < 0.446) ∧
      (handleEmptyResponse 135 (sampleConfig 3 100 1)).arrakis.average =
        3 * decayFactor 35 := by
  refine ⟨?_, ?_, ?_, decayFactor_35_bounds, handleEmptyResponse_c6_eval⟩
  · intro hgap
    unfold decayEWMA
    rw [if_neg hlu, if_pos hgap]
  · intro hgap hbig
    unfold decayEWMA
    rw [if_neg hlu, if_neg (not_lt.mpr hgap)]
    simp only
    rw [if_neg (not_lt.mpr hbig)]
  · intro hgap hsmall
    unfold decayEWMA
    rw [if_neg hlu, if_neg (not_lt.mpr hgap)]
    simp only
    rw [if_pos hsmall]

/-- Witness for C6 (amended) on the concrete scenario state. -/
theorem decay_timing_amended_witness :
    (sampleConfig 3 100 1).arrakis.lastUpdate ≠ 0 ∧
      (((135 : ℝ) - (sampleConfig 3 100 1).arrakis.lastUpdate < minDecayGapSeconds →
          decayEWMA 135 (sampleConfig 3 100 1) = sampleConfig 3 100 1) ∧
        (minDecayGapSeconds ≤ (135 : ℝ) - (sampleConfig 3 100 1).arrakis.lastUpdate →
          ewmaDecayThreshold ≤
            (sampleConfig 3 100 1).arrakis.average *
              decayFactor ((135 : ℝ) - (sampleConfig 3 100 1).arrakis.lastUpdate) →
          (decayEWMA 135 (sampleConfig 3 100 1)).arrakis.average =
            (sampleConfig 3 100 1).arrakis.average *
              decayFactor ((135 : ℝ) - (sampleConfig 3 100 1).arrakis.lastUpdate)) ∧
        (minDecayGapSeconds ≤ (135 : ℝ) - (sampleConfig 3 100 1).arrakis.lastUpdate →
          (sampleConfig 3 100 1).arrakis.average *
              decayFactor ((135 : ℝ) - (sampleConfig 3 100 1).arrakis.lastUpdate) <
            ewmaDecayThreshold →
          (decayEWMA 135 (sampleConfig 3 100 1)).arrakis.average = 0) ∧
        (0.445 < decayFactor 35 ∧ decayFactor 35 < 0.446) ∧
        (handleEmptyResponse 135 (sampleConfig 3 100 1)).arrakis.average =
          3 * decayFactor 35) :=
  ⟨by norm_num [sampleConfig, zeroArrakisState],
    decay_timing_amended 135 (sampleConfig 3 100 1)
      (by norm_num [sampleConfig, zeroArrakisState])⟩

/-! ### Preservation lemmas for the non-negativity invariant -/

lemma decayFactor_nonneg (dt : ℝ) : 0 ≤ decayFactor dt :=
  Real.rpow_nonneg (by norm_num) _

lemma calculateAverage_nonneg (ewmaAlpha average : ℝ) (messageCount : ℕ)
    (h0 : 0 ≤ ewmaAlpha) (h1 : ewmaAlpha ≤ 1) (ha : 0 ≤ average) :
    0 ≤ calculateAverage ewmaAlpha average messageCount := by
  unfold calculateAverage
  split_ifs with hpos hclamp
  · exact add_nonneg (mul_nonneg h0 (by linarith)) (mul_nonneg (by linarith) ha)
  · exact add_nonneg (mul_nonneg h0 (Nat.cast_nonneg _)) (mul_nonneg (by linarith) ha)
  · exact add_nonneg (mul_nonneg h0 (Nat.cast_nonneg _)) (mul_nonneg (by linarith) ha)

lemma decayEWMA_ewmaAlpha (now : ℝ) (c : Config) :
    (decayEWMA now c).arrakis.ewmaAlpha = c.arrakis.ewmaAlpha := by
  unfold decayEWMA
  split_ifs with h1 h2
  · rfl
  · rfl
  · simp only
    split_ifs <;> rfl

lemma decayEWMA_average_nonneg (now : ℝ) (c : Config)
    (ha : 0 ≤ c.arrakis.average) :
    0 ≤ (decayEWMA now c).arrakis.average := by
  unfold decayEWMA
  split_ifs with h1 h2
  · exact ha
  · exact ha
  · simp only
    split_ifs with h3
    · simp
    · simpa using mul_nonneg ha (decayFactor_nonneg _)

lemma handleEmptyResponse_ewmaAlpha (now : ℝ) (c : Config) :
    (handleEmptyResponse now c).arrakis.ewmaAlpha = c.arrakis.ewmaAlpha := by
  unfold handleEmptyResponse
  split_ifs with h1
  · simp only
    split_ifs with h2
    · simpa using decayEWMA_ewmaAlpha now (incrementConsecutiveEmptyMessages c)
    · rfl
  · rfl

lemma handleEmptyResponse_average_nonneg (now : ℝ) (c : Config)
    (ha : 0 ≤ c.arrakis.average) :
    0 ≤ (handleEmptyResponse now c).arrakis.average := by
  unfold handleEmptyResponse
  split_ifs with h1
  · simp only
    split_ifs with h2
    · simpa using decayEWMA_average_nonneg now (incrementConsecutiveEmptyMessages c) ha
    · simpa using ha
  · simpa using ha

lemma updateMessageCount_ewmaAlpha (now : ℝ) (messageCount : ℕ) (c : Config) :
    (updateMessageCount now messageCount c).arrakis.ewmaAlpha = c.arrakis.ewmaAlpha := by
  simp only [updateMessageCount]
  split_ifs <;> simp [resetEWMA]

lemma updateMessageCount_average_nonneg (now : ℝ) (messageCount : ℕ) (c : Config)
    (h0 : 0 ≤ c.arrakis.ewmaAlpha) (h1 : c.arrakis.ewmaAlpha ≤ 1)
    (ha : 0 ≤ c.arrakis.average) :
    0 ≤ (updateMessageCount now messageCount c).arrakis.average := by
  simp only [updateMessageCount]
  split_ifs with hlow hreset
  · simp [resetEWMA]
  · simpa using calculateAverage_nonneg _ _ messageCount h0 h1 ha
  · simpa using calculateAverage_nonneg _ _ messageCount h0 h1 ha

lemma applyEvent_ewmaAlpha (c : Config) (e : PollEvent) :
    (applyEvent c e).arrakis.ewmaAlpha = c.arrakis.ewmaAlpha := by
  cases e with
  | receive now messageCount =>
      simp only [applyEvent, handleReceiveResponse]
      split_ifs with h1 h2
      · exact handleEmptyResponse_ewmaAlpha _ _
      · simp only [handleNonEmptyResponse]
        rw [updateMessageCount_ewmaAlpha]
        rfl
      · rfl
  | enable => rfl
  | disable => rfl

lemma applyEvent_average_nonneg (c : Config) (e : PollEvent)
    (h0 : 0 ≤ c.arrakis.ewmaAlpha) (h1 : c.arrakis.ewmaAlpha ≤ 1)
    (ha : 0 ≤ c.arrakis.average) :
    0 ≤ (applyEvent c e).arrakis.average := by
  cases e with
  | receive now messageCount =>
      simp only [applyEvent, handleReceiveResponse]
      split_ifs with h1' h2'
      · exact handleEmptyResponse_average_nonneg _ _ ha
      · simp only [handleNonEmptyResponse]
        exact updateMessageCount_average_nonneg _ _ _ h0 h1 ha
      · exact ha
  | enable => exact ha
  | disable => exact ha

/-- C9: non-negativity invariant: for every sequence of completed polls
with non-negative counts — idle decays, drop resets and enable/disable
toggles included — given `alpha ∈ (0, 1]` and a non-negative initial
average, the state's average remains `≥ 0` after every operation. -/
theorem average_nonneg_invariant (events : List PollEvent) (c : Config)
    (h0 : 0 < c.arrakis.ewmaAlpha) (h1 : c.arrakis.ewmaAlpha ≤ 1)
    (ha : 0 ≤ c.arrakis.average) :
    0 ≤ (runEvents c events).arrakis.average := by
  induction events generalizing c with
  | nil => simpa [runEvents] using ha
  | cons e es ih =>
      have halpha := applyEvent_ewmaAlpha c e
      have have_nonneg := applyEvent_average_nonneg c e (le_of_lt h0) h1 ha
      have hstep : runEvents c (e :: es) = runEvents (applyEvent c e) es := rfl
      rw [hstep]
      exact ih (applyEvent c e) (by rw [halpha]; exact h0)
        (by rw [halpha]; exact h1) have_nonneg

/-- Witness for C9: a concrete six-event run (bursts, empty polls and
toggles) from `average = 1`. -/
theorem average_nonneg_invariant_witness :
    0 < (sampleConfig 1 0 0).arrakis.ewmaAlpha ∧
      (sampleConfig 1 0 0).arrakis.ewmaAlpha ≤ 1 ∧
      0 ≤ (sampleConfig 1 0 0).arrakis.average ∧
      0 ≤ (runEvents (sampleConfig 1 0 0)
            [PollEvent.receive 10 5, PollEvent.receive 50 0, PollEvent.disable,
              PollEvent.receive 80 1, PollEvent.enable,
              PollEvent.receive 120 0]).arrakis.average :=
  ⟨by norm_num [sampleConfig, zeroArrakisState],
    by norm_num [sampleConfig, zeroArrakisState],
    by norm_num [sampleConfig, zeroArrakisState],
    average_nonneg_invariant _ (sampleConfig 1 0 0)
      (by norm_num [sampleConfig, zeroArrakisState])
      (by norm_num [sampleConfig, zeroArrakisState])
      (by norm_num [sampleConfig, zeroArrakisState])⟩

end Arrakis
